import Mathlib

/-!
Shallow embedding of the `execx` Go package (package `execx`, file
`execx.go`): wrapping an `*exec.ExitError` into a decorated `*ExitError`
with command, directory and environment context, plus the command-line
renderer and the dual-mode formatter.

Modelling conventions:
- Go machine state read inside `Wrap` (the `env.Variables()` parent
  environment snapshot and the `os.Getwd()` query) is passed explicitly as
  parameters `parentSnapshot : EnvMap` and `getwd : Option String`
  (`none` models a failed `os.Getwd` call).
- A Go `error` interface value that may be nil is `Option GoError`;
  `GoError.exit` is an `*exec.ExitError`, `GoError.other` any other error
  value (its payload is an opaque identity plus its message).
- Pointer identity of `*os.ProcessState` is an opaque token
  `Option Nat` (`none` is the nil pointer); Go compares these pointers
  with `!=`, modelled as decidable equality of the tokens.
- A Go run-time panic (nil-pointer dereference, slice bounds out of
  range) is the `none` value of an `Option` result.
- The `acln.ro/env` collaborator package and the `os/exec` /
  `os.ProcessState` accounting are external to the repository; their
  operations are modelled from the spec where noted, and the rendered
  user/system CPU times and the underlying `Error()` message are carried
  as opaque string fields of the exit error.
- Paths follow the Unix rules of Go `path/filepath` (separator `/`,
  no volume names).
-/

namespace Execx

/-- An environment mapping: ordered association list of variable name to
value with unique keys (the shape of `env.Map`). -/
abbrev EnvMap := List (String × String)

/-- Lookup of a key in an environment mapping. -/
def envLookup (m : EnvMap) (k : String) : Option String :=
  match m with
  | [] => none
  | kv :: rest => if kv.1 = k then some kv.2 else envLookup rest k

/-- Insert or overwrite one binding, keeping keys unique. -/
def envSet (m : EnvMap) (k v : String) : EnvMap :=
  match m with
  | [] => [(k, v)]
  | kv :: rest => if kv.1 = k then (k, v) :: rest else kv :: envSet rest k v

/-- Split a character list at the first `=`: the part before it and the
part after it; a string with no `=` yields the whole string as key and an
empty value. -/
def splitKVChars : List Char → List Char × List Char
  | [] => ([], [])
  | c :: rest =>
    if c = '=' then ([], rest)
    else
      let p := splitKVChars rest
      (c :: p.1, p.2)

/-- Split a `KEY=VALUE` string into its key and value. -/
def splitKV (s : String) : String × String :=
  let p := splitKVChars s.data
  (String.mk p.1, String.mk p.2)

/-- Modelled from the spec: `env.Parse` of the external environment
collaborator (package `acln.ro/env`, not part of this repository) turns a
sequence of `KEY=VALUE` strings into an environment mapping with unique
keys; later entries overwrite earlier ones. -/
def envParse (kvs : List String) : EnvMap :=
  kvs.foldl (fun m s => envSet m (splitKV s).1 (splitKV s).2) []

/-- Modelled from the spec: `env.Merge` of the external environment
collaborator merges two mappings, right-hand entries overriding left-hand
entries on key collision. -/
def envMerge (a b : EnvMap) : EnvMap :=
  b.foldl (fun m kv => envSet m kv.1 kv.2) a

/-- Modelled from the spec: the detailed multi-line display rendering of a
mapping offered by the external environment collaborator (its `%+v`
formatting), one `KEY=VALUE` line per binding. -/
def envDetail (m : EnvMap) : String :=
  String.intercalate "\n" (m.map (fun kv => kv.1 ++ "=" ++ kv.2))

/-- Characters of a path with trailing separators stripped, as in the
first loop of Go `filepath.Base`. -/
def dropTrailingSep (cs : List Char) : List Char :=
  (cs.reverse.dropWhile (fun c => c = '/')).reverse

/-- The characters after the last separator (the whole list when no
separator occurs), as in the `strings.LastIndex` step of Go
`filepath.Base`. -/
def afterLastSep (cs : List Char) : List Char :=
  cs.foldl (fun acc c => if c = '/' then [] else acc ++ [c]) []

/-- Go `filepath.Base` on Unix: `"."` for the empty path, trailing
separators stripped, then the element after the last separator; `"/"`
when the path consisted only of separators. -/
def filepathBase (path : String) : String :=
  if path = "" then "."
  else
    let stripped := dropTrailingSep path.data
    let last := afterLastSep stripped
    if last = [] then "/" else String.mk last

/-- `func cmdline(path string, args []string) string`: the concatenation
of `filepath.Base(path)` and `args[1:]`, joined by single spaces.
`args[1:]` on an empty slice is a slice-bounds-out-of-range run-time
panic in Go, modelled as `none`. -/
def cmdline (path : String) (args : List String) : Option String :=
  if args.isEmpty then none
  else some (String.intercalate " " (filepathBase path :: args.drop 1))

/-- The underlying `*exec.ExitError` produced by the external
process-execution collaborator: the pointer identity of its
`ProcessState`, its `Error()` message, its captured `Stderr` bytes
(`none` is the nil slice), and the rendered user and system CPU times of
its resource accounting. -/
structure ExecExitError where
  psId : Option Nat
  msg : String
  stderr : Option String
  userTime : String
  systemTime : String
deriving DecidableEq

/-- A non-nil Go `error` value as seen by `Wrap`: either an
`*exec.ExitError` or some other (foreign) error. -/
inductive GoError where
  | exit (ee : ExecExitError)
  | other (id : Nat) (msg : String)
deriving DecidableEq

/-- The message of a Go error value (its `Error()` method). -/
def GoError.Error : GoError → String
  | GoError.exit ee => ee.msg
  | GoError.other _ m => m

/-- The fields of `*exec.Cmd` read by this package: `Path`, `Args`,
`Dir`, `Env` (`none` is the nil slice, `some []` an explicitly empty
environment) and the pointer identity of `ProcessState`. -/
structure Cmd where
  path : String
  args : List String
  dir : String
  env : Option (List String)
  processState : Option Nat
deriving DecidableEq

/-- `func Cmdline(cmd *exec.Cmd) string`. -/
def Cmdline (cmd : Cmd) : Option String :=
  cmdline cmd.path cmd.args

/-- `type ExitError struct`: the decorated exit error, holding the
original `*exec.ExitError` and the captured context. -/
structure ExitError where
  exitError : ExecExitError
  path : String
  args : List String
  dir : String
  parentEnv : EnvMap
  childEnv : EnvMap
deriving DecidableEq

/-- `func (e *ExitError) Cmdline() string`. -/
def ExitError.Cmdline (e : ExitError) : Option String :=
  cmdline e.path e.args

/-- `func (e *ExitError) Unwrap() error`: returns `e.ExitError`. -/
def ExitError.Unwrap (e : ExitError) : GoError :=
  GoError.exit e.exitError

/-- `func (e *ExitError) Error() string`: returns `e.ExitError.Error()`. -/
def ExitError.Error (e : ExitError) : String :=
  e.exitError.msg

/-- The value returned by `Wrap`: nil, the input error unchanged, or a
new decorated `*ExitError`. -/
inductive WrapResult where
  | nilResult
  | passthrough (e : GoError)
  | decorated (e : ExitError)
deriving DecidableEq

/-- `func Wrap(err error, cmd *exec.Cmd) error`. `parentSnapshot` is the
`env.Variables()` snapshot taken during the call and `getwd` the result
of `os.Getwd()` (`none` a failure). The overall `none` result models the
Go nil-pointer panic of `cmd.ProcessState` when `cmd` is nil and the
comparison is reached. -/
def Wrap (err : Option GoError) (cmd : Option Cmd)
    (parentSnapshot : EnvMap) (getwd : Option String) : Option WrapResult :=
  match err with
  | none => some WrapResult.nilResult
  | some (GoError.other i m) => some (WrapResult.passthrough (GoError.other i m))
  | some (GoError.exit ee) =>
    match cmd with
    | none => none
    | some c =>
      if ee.psId ≠ c.processState then
        some (WrapResult.passthrough (GoError.exit ee))
      else
        some (WrapResult.decorated
          { exitError := ee
            path := c.path
            args := c.args
            dir := if c.dir = "" then
                     (match getwd with | some wd => wd | none => c.dir)
                   else c.dir
            parentEnv := parentSnapshot
            childEnv := match c.env with
                        | none => parentSnapshot
                        | some kvs => envParse kvs })

/-- `func (e *ExitError) formatBasic(w io.Writer)`: the command line, the
underlying message, and the captured stderr when its byte slice is
non-nil. `none` models the panic propagated from `cmdline`. -/
def ExitError.formatBasic (e : ExitError) : Option String :=
  match cmdline e.path e.args with
  | none => none
  | some cl =>
    some (cl ++ ": " ++ e.exitError.msg ++
      (match e.exitError.stderr with
       | none => ""
       | some s => ": " ++ s))

/-- `func (e *ExitError) formatDetail(w io.Writer)`: the basic output,
then the workdir, user-time and system-time lines, then the detailed
child-environment rendering. -/
def ExitError.formatDetail (e : ExitError) : Option String :=
  match e.formatBasic with
  | none => none
  | some basic =>
    some (basic ++ "\n" ++ "workdir: " ++ e.dir ++ "\n" ++
      "user time: " ++ e.exitError.userTime ++ "\n" ++
      "system time: " ++ e.exitError.systemTime ++ "\n" ++ "\n" ++
      envDetail e.childEnv)

/-- `func (e *ExitError) Format(s fmt.State, verb rune)`: no output for a
verb other than `v`; detail mode for the `+` flag, basic mode
otherwise. The returned string is everything written to the state. -/
def ExitError.Format (e : ExitError) (verb : Char) (plusFlag : Bool) :
    Option String :=
  if verb ≠ 'v' then some ""
  else if plusFlag then e.formatDetail
  else e.formatBasic

/-- Child environment of a wrap result when it is a decorated error. -/
def childEnvOf : Option WrapResult → Option EnvMap
  | some (WrapResult.decorated e) => some e.childEnv
  | _ => none

/-- Directory of a wrap result when it is a decorated error. -/
def dirOf : Option WrapResult → Option String
  | some (WrapResult.decorated e) => some e.dir
  | _ => none

/-- A sample underlying exit error used in concrete evaluations. -/
def sampleErr : ExecExitError :=
  { psId := some 1
    msg := "exit status 1"
    stderr := some "whoops"
    userTime := "1ms"
    systemTime := "2ms" }

/-- A sample command matching `sampleErr`, with an explicit environment. -/
def sampleCmd : Cmd :=
  { path := "/usr/bin/git"
    args := ["git", "fetch", "something"]
    dir := ""
    env := some ["B=2"]
    processState := some 1 }

/-- A sample parent environment snapshot. -/
def sampleParent : EnvMap := [("A", "1")]

end Execx

namespace Execx

/-- The mismatched underlying exit error used in concrete evaluations:
its process-completion identity differs from `sampleCmd`'s. -/
def mismatchErr : ExecExitError :=
  { psId := some 2
    msg := "exit status 3"
    stderr := none
    userTime := "0s"
    systemTime := "0s" }

/-- The decorated error that `Wrap` produces on the sample inputs with
`getwd = some "/wd"`. -/
def sampleDecorated : ExitError :=
  { exitError := sampleErr
    path := "/usr/bin/git"
    args := ["git", "fetch", "something"]
    dir := "/wd"
    parentEnv := sampleParent
    childEnv := [("B", "2")] }

/-- C1 counterexample: on a matched wrap call with parent snapshot
`[("A", "1")]` and explicit environment `["B=2"]`, the decorated error's
`ChildEnv` is `[("B", "2")]`, which lacks the key `A` that
`merge(parentSnapshot, parse(explicitEnv))` maps to `"1"`; so `ChildEnv`
is not the merge the claim states. -/
theorem c1_counterexample :
    childEnvOf (Wrap (some (GoError.exit sampleErr)) (some sampleCmd)
        sampleParent (some "/wd"))
      = some [("B", "2")] ∧
    envLookup [("B", "2")] "A" = none ∧
    envLookup (envMerge sampleParent (envParse ["B=2"])) "A" = some "1" :=
  ⟨rfl, rfl, rfl⟩

/-- C1 (amended): for every matched wrap call, the decorated error's
`ChildEnv` equals the captured parent snapshot when the descriptor's
explicit environment is unset, and equals `parse(explicitEnv)` (with no
merge against the parent snapshot) when it is populated. -/
theorem c1_amended (ee : ExecExitError) (c : Cmd) (ps : EnvMap)
    (gw : Option String) (d : ExitError)
    (h : Wrap (some (GoError.exit ee)) (some c) ps gw
      = some (WrapResult.decorated d)) :
    (c.env = none → d.childEnv = ps) ∧
    (∀ kvs, c.env = some kvs → d.childEnv = envParse kvs) := by
  simp only [Wrap] at h
  by_cases hid : ee.psId = c.processState
  · rw [if_neg (not_not_intro hid)] at h
    rw [Option.some.injEq, WrapResult.decorated.injEq] at h
    subst h
    constructor
    · intro hc; rw [hc]
    · intro kvs hc; rw [hc]
  · rw [if_pos hid] at h
    simp at h

/-- C1 witness: `c1_amended` applied to the sample matched wrap call,
whose explicit environment is `["B=2"]`. -/
theorem c1_amended_witness :
    Wrap (some (GoError.exit sampleErr)) (some sampleCmd) sampleParent
        (some "/wd")
      = some (WrapResult.decorated sampleDecorated) ∧
    sampleCmd.env = some ["B=2"] ∧
    sampleDecorated.childEnv = envParse ["B=2"] :=
  ⟨rfl, rfl,
    (c1_amended sampleErr sampleCmd sampleParent (some "/wd")
      sampleDecorated rfl).2 ["B=2"] rfl⟩

/-- C2 counterexample: rendering is not total — on the empty argument
sequence the Go code evaluates `args[1:]` on an empty slice, a
slice-bounds-out-of-range run-time panic, modelled by the `none`
result. -/
theorem c2_counterexample : cmdline "/usr/bin/git" [] = none := rfl

/-- C2 (amended): for every path string and every non-empty argument
sequence the renderer produces a string and cannot fail. -/
theorem c2_amended (path : String) (args : List String) (h : args ≠ []) :
    ∃ s, cmdline path args = some s := by
  cases args with
  | nil => exact absurd rfl h
  | cons a rest => exact ⟨_, rfl⟩

/-- C2 witness: `c2_amended` applied to a concrete path and a concrete
non-empty argument sequence. -/
theorem c2_amended_witness :
    (["git"] : List String) ≠ [] ∧
    ∃ s, cmdline "/usr/bin/git" ["git"] = some s :=
  ⟨by decide, c2_amended "/usr/bin/git" ["git"] (by decide)⟩

/-- C3: `Wrap` decorates only a matched exit-status error; an absent
error yields an absent result, a foreign error is returned as the
identical value, and an exit-status error whose process-completion
identity differs from the descriptor's is returned as the identical
value. -/
theorem c3_passthrough (ee : ExecExitError) (c : Cmd) (ps : EnvMap)
    (gw : Option String) (h : ee.psId ≠ c.processState) :
    (∀ cmd ps2 gw2, Wrap none cmd ps2 gw2 = some WrapResult.nilResult) ∧
    (∀ i m cmd ps2 gw2,
      Wrap (some (GoError.other i m)) cmd ps2 gw2
        = some (WrapResult.passthrough (GoError.other i m))) ∧
    Wrap (some (GoError.exit ee)) (some c) ps gw
      = some (WrapResult.passthrough (GoError.exit ee)) := by
  refine ⟨fun cmd ps2 gw2 => rfl, fun i m cmd ps2 gw2 => rfl, ?_⟩
  simp only [Wrap]
  rw [if_pos h]

/-- C3 witness: `c3_passthrough` applied to a concrete exit error whose
identity differs from the concrete command's. -/
theorem c3_passthrough_witness :
    mismatchErr.psId ≠ sampleCmd.processState ∧
    Wrap (some (GoError.exit mismatchErr)) (some sampleCmd) [] none
      = some (WrapResult.passthrough (GoError.exit mismatchErr)) :=
  ⟨by decide,
    (c3_passthrough mismatchErr sampleCmd [] none (by decide)).2.2⟩

/-- C4: the formatter honors the verb/flag table — any verb other than
`v` emits no output for both flag states; verb `v` without the flag
emits exactly the command line, `": "`, the underlying message, and a
`": "`-prefixed stderr exactly when stderr was captured; verb `v` with
the `+` flag emits the basic line plus the workdir line, the user-time
line, the system-time line and the detailed child-environment
rendering. -/
theorem c4_format (e : ExitError) (cl : String)
    (h : cmdline e.path e.args = some cl) :
    (∀ verb plusFlag, verb ≠ 'v' →
      ExitError.Format e verb plusFlag = some "") ∧
    ExitError.Format e 'v' false = some (cl ++ ": " ++ e.exitError.msg ++
      (match e.exitError.stderr with | none => "" | some s => ": " ++ s)) ∧
    ExitError.Format e 'v' true = some (cl ++ ": " ++ e.exitError.msg ++
      (match e.exitError.stderr with | none => "" | some s => ": " ++ s) ++
      "\n" ++ "workdir: " ++ e.dir ++ "\n" ++
      "user time: " ++ e.exitError.userTime ++ "\n" ++
      "system time: " ++ e.exitError.systemTime ++ "\n" ++ "\n" ++
      envDetail e.childEnv) := by
  refine ⟨fun verb plusFlag hv => ?_, ?_, ?_⟩
  · unfold ExitError.Format
    rw [if_pos hv]
  · show ExitError.formatBasic e = _
    unfold ExitError.formatBasic
    rw [h]
  · show ExitError.formatDetail e = _
    unfold ExitError.formatDetail ExitError.formatBasic
    rw [h]

/-- C4 witness: `c4_format` applied to the sample decorated error, whose
command line renders to `"git fetch something"`, at the non-display verb
`d`. -/
theorem c4_format_witness :
    cmdline sampleDecorated.path sampleDecorated.args
      = some "git fetch something" ∧
    ExitError.Format sampleDecorated 'd' true = some "" :=
  ⟨rfl,
    (c4_format sampleDecorated "git fetch something" rfl).1 'd' true
      (by decide)⟩

/-- C5: for every matched wrap call, the decorated error's `ChildEnv`
equals the parent snapshot captured in the same call when the
descriptor's explicit environment is unset, and equals
`parse(explicitEnv)` when it is populated (including populated but
empty). -/
theorem c5_childenv (ee : ExecExitError) (c : Cmd) (ps : EnvMap)
    (gw : Option String) (h : ee.psId = c.processState) :
    (c.env = none →
      childEnvOf (Wrap (some (GoError.exit ee)) (some c) ps gw) = some ps) ∧
    (∀ kvs, c.env = some kvs →
      childEnvOf (Wrap (some (GoError.exit ee)) (some c) ps gw)
        = some (envParse kvs)) := by
  simp only [Wrap]
  rw [if_neg (not_not_intro h)]
  constructor
  · intro hc; rw [hc]; rfl
  · intro kvs hc; rw [hc]; rfl

/-- C5 witness: `c5_childenv` applied to the sample matched wrap call
with explicit environment `["B=2"]`. -/
theorem c5_childenv_witness :
    sampleErr.psId = sampleCmd.processState ∧
    sampleCmd.env = some ["B=2"] ∧
    childEnvOf (Wrap (some (GoError.exit sampleErr)) (some sampleCmd)
        sampleParent none)
      = some (envParse ["B=2"]) :=
  ⟨rfl, rfl, (c5_childenv sampleErr sampleCmd sampleParent none rfl).2
    ["B=2"] rfl⟩

/-- C6: on every non-empty argument sequence the renderer returns the
base name of the path followed by the arguments from index 1 onward,
joined with single spaces; and concretely
`cmdline "/usr/bin/git" ["git", "fetch", "something"]` is
`"git fetch something"`. -/
theorem c6_cmdline (path : String) (a : String) (rest : List String) :
    cmdline path (a :: rest)
      = some (String.intercalate " " (filepathBase path :: rest)) ∧
    cmdline "/usr/bin/git" ["git", "fetch", "something"]
      = some "git fetch something" :=
  ⟨rfl, rfl⟩

/-- C7: for every matched wrap call, the decorated error's `Dir` is the
descriptor's directory when non-empty; otherwise it is the working
directory when the query succeeds and stays empty when the query fails;
and the wrap operation itself always produces a decorated error,
regardless of the query's outcome. -/
theorem c7_dir (ee : ExecExitError) (c : Cmd) (ps : EnvMap)
    (gw : Option String) (h : ee.psId = c.processState) :
    (c.dir ≠ "" →
      dirOf (Wrap (some (GoError.exit ee)) (some c) ps gw) = some c.dir) ∧
    (∀ wd, c.dir = "" → gw = some wd →
      dirOf (Wrap (some (GoError.exit ee)) (some c) ps gw) = some wd) ∧
    (c.dir = "" → gw = none →
      dirOf (Wrap (some (GoError.exit ee)) (some c) ps gw) = some "") ∧
    (∃ d, Wrap (some (GoError.exit ee)) (some c) ps gw
      = some (WrapResult.decorated d)) := by
  simp only [Wrap]
  rw [if_neg (not_not_intro h)]
  refine ⟨?_, ?_, ?_, ⟨_, rfl⟩⟩
  · intro hd
    show some (if c.dir = "" then _ else c.dir) = some c.dir
    rw [if_neg hd]
  · intro wd hd hg
    subst hg
    show some (if c.dir = "" then wd else c.dir) = some wd
    rw [if_pos hd]
  · intro hd hg
    subst hg
    show some (if c.dir = "" then c.dir else c.dir) = some ""
    rw [if_pos hd, hd]

/-- C7 witness: `c7_dir` applied to the sample matched wrap call, whose
descriptor has an empty directory and whose working-directory query
succeeds with `"/wd"`. -/
theorem c7_dir_witness :
    sampleErr.psId = sampleCmd.processState ∧
    sampleCmd.dir = "" ∧
    dirOf (Wrap (some (GoError.exit sampleErr)) (some sampleCmd)
        sampleParent (some "/wd"))
      = some "/wd" :=
  ⟨rfl, rfl,
    (c7_dir sampleErr sampleCmd sampleParent (some "/wd") rfl).2.1 "/wd"
      rfl rfl⟩

/-- C8: decoration is additive — for every matched wrap call, `Unwrap`
of the decorated error returns the original underlying exit-status error
and the decorated error's message equals the original error's message
verbatim. -/
theorem c8_additive (ee : ExecExitError) (c : Cmd) (ps : EnvMap)
    (gw : Option String) (d : ExitError)
    (h : Wrap (some (GoError.exit ee)) (some c) ps gw
      = some (WrapResult.decorated d)) :
    ExitError.Unwrap d = GoError.exit ee ∧
    ExitError.Error d = GoError.Error (GoError.exit ee) := by
  simp only [Wrap] at h
  by_cases hid : ee.psId = c.processState
  · rw [if_neg (not_not_intro hid)] at h
    rw [Option.some.injEq, WrapResult.decorated.injEq] at h
    subst h
    exact ⟨rfl, rfl⟩
  · rw [if_pos hid] at h
    simp at h

/-- C8 witness: `c8_additive` applied to the sample matched wrap call. -/
theorem c8_additive_witness :
    Wrap (some (GoError.exit sampleErr)) (some sampleCmd) sampleParent
        (some "/wd")
      = some (WrapResult.decorated sampleDecorated) ∧
    ExitError.Unwrap sampleDecorated = GoError.exit sampleErr ∧
    ExitError.Error sampleDecorated = GoError.Error (GoError.exit sampleErr) :=
  ⟨rfl, c8_additive sampleErr sampleCmd sampleParent (some "/wd")
    sampleDecorated rfl⟩

/-- C9: basic-mode formatting decides the stderr suffix by nil-ness, not
emptiness — no suffix when stderr is absent (nil), a `": "`-prefixed
suffix for every captured stderr value, and in particular a trailing
`": "` with empty content when stderr was captured but is empty. -/
theorem c9_stderr (e : ExitError) (cl : String)
    (h : cmdline e.path e.args = some cl) :
    (e.exitError.stderr = none →
      ExitError.formatBasic e = some (cl ++ ": " ++ e.exitError.msg)) ∧
    (∀ s, e.exitError.stderr = some s →
      ExitError.formatBasic e
        = some (cl ++ ": " ++ e.exitError.msg ++ ": " ++ s)) ∧
    (e.exitError.stderr = some "" →
      ExitError.formatBasic e
        = some (cl ++ ": " ++ e.exitError.msg ++ ": ")) := by
  unfold ExitError.formatBasic
  rw [h]
  refine ⟨?_, ?_, ?_⟩
  · intro hs; rw [hs]; simp
  · intro s hs; rw [hs]; simp [String.append_assoc]
  · intro hs; rw [hs]; simp

/-- C9 witness: `c9_stderr` applied to the sample decorated error, whose
captured stderr is `"whoops"`. -/
theorem c9_stderr_witness :
    cmdline sampleDecorated.path sampleDecorated.args
      = some "git fetch something" ∧
    sampleDecorated.exitError.stderr = some "whoops" ∧
    ExitError.formatBasic sampleDecorated
      = some ("git fetch something" ++ ": " ++ sampleDecorated.exitError.msg
          ++ ": " ++ "whoops") :=
  ⟨rfl, rfl,
    (c9_stderr sampleDecorated "git fetch something" rfl).2.1 "whoops" rfl⟩

/-- C10: `Wrap` reads the command descriptor only after the error is
recognized as an exit-status error — an absent error and a foreign error
are handled as stated even with an absent (nil) descriptor, while a
recognized exit-status error with an absent descriptor dereferences the
nil descriptor's `ProcessState` field and panics (modelled by the `none`
result). -/
theorem c10_nilcmd :
    (∀ cmd ps gw, Wrap none cmd ps gw = some WrapResult.nilResult) ∧
    (∀ i m ps gw,
      Wrap (some (GoError.other i m)) none ps gw
        = some (WrapResult.passthrough (GoError.other i m))) ∧
    (∀ ee ps gw, Wrap (some (GoError.exit ee)) none ps gw = none) :=
  ⟨fun _ _ _ => rfl, fun _ _ _ _ => rfl, fun _ _ _ => rfl⟩

end Execx
